import Mathlib

/-!
Verification of the NordVpnLinuxGUI self-installing bootstrapper
(`bin-installer.py`) against its natural-language specification.

The single source file is shallowly embedded below.  External effects
(subprocess invocations of pip / pyinstaller, filesystem reads and writes,
stdin) are made explicit: fallible external tool calls are parameterised by
an oracle recording which invocations succeed, the filesystem is an explicit
state record, and the interactive prompt's input is an `Option String`
(`none` models the select-timeout firing before any input arrived).
Python's `str.strip`, `str.lower`, `str.split("==")` and `str.startswith`
are re-implemented character-by-character because this development needs
them to evaluate inside the kernel.
-/

namespace NordInstaller

/-- Whitespace recognised by Python's `str.strip()` (ASCII subset). -/
def isSpaceChar (c : Char) : Bool :=
  c == ' ' || c == '\t' || c == '\n' || c == '\r' || c == '\x0b' || c == '\x0c'

/-- Strip leading and trailing whitespace from a character list. -/
def trimCharList (l : List Char) : List Char :=
  ((l.dropWhile isSpaceChar).reverse.dropWhile isSpaceChar).reverse

/-- Python `s.strip()`. -/
def pyStrip (s : String) : String := String.mk (trimCharList s.data)

/-- Lower-case a single ASCII character, Python `str.lower` on ASCII. -/
def lowerChar (c : Char) : Char :=
  if 'A' ≤ c && c ≤ 'Z' then Char.ofNat (c.toNat + 32) else c

/-- Python `s.lower()` (ASCII subset). -/
def pyLower (s : String) : String := String.mk (s.data.map lowerChar)

/-- Split a character list on the two-character separator `==`,
left to right, non-overlapping, as Python `s.split("==")` does. -/
def splitEqEqAux : List Char → List Char → List (List Char)
  | [], acc => [acc.reverse]
  | '=' :: '=' :: rest, acc => acc.reverse :: splitEqEqAux rest []
  | c :: rest, acc => splitEqEqAux rest (c :: acc)

/-- Python `s.split("==")`. -/
def splitEqEq (s : String) : List String :=
  (splitEqEqAux s.data []).map String.mk

/-- Python `s.startswith("#")`. -/
def startsWithHash (s : String) : Bool :=
  match s.data with
  | [] => false
  | c :: _ => c == '#'

/-! ## Global path constants (source lines 12-22)

The install paths are deterministic functions of the user's home directory
and the fixed application name, mirroring the module-level constants. -/

def APP_NAME : String := "NordVPN"

def BIN_NAME : String := APP_NAME ++ "-GUI"

def READ_NAME : String := APP_NAME ++ " GUI"

def INSTALL_DIR (home : String) : String := home ++ "/.local/share/" ++ APP_NAME

def BIN_PATH (home : String) : String := INSTALL_DIR home ++ "/" ++ BIN_NAME

def ICON_PATH (home : String) : String := INSTALL_DIR home ++ "/icon.jpg"

def INSTALLED_FILE (home : String) : String :=
  INSTALL_DIR home ++ "/Installed-" ++ BIN_NAME

def DESKTOP_FILE (home : String) : String :=
  INSTALL_DIR home ++ "/" ++ APP_NAME ++ ".desktop"

def MENU_DESKTOP_FILE (home : String) : String :=
  home ++ "/.local/share/applications/" ++ APP_NAME ++ ".desktop"

/-! ## Dependency reconciliation (source lines 169-248)

`install_dependencies` walks the parsed manifest and calls
`pip install` through `subprocess.run`.  The external pip tool is modelled
by a `PipModel`: `ok arg` tells whether the invocation
`pip install <arg>` exits with code 0, and `latest p` is the version an
unpinned successful install of package `p` leaves behind.  The build
environment (`pip show` state) is an association list from package name to
installed version; a successful `pip install name==v` makes `v` the
installed version of `name`, a successful unpinned install installs
`latest name`. -/

/-- The build environment: installed package versions, queried by
`get_installed_version` (source lines 169-183). -/
abbrev Env := List (String × String)

/-- Look up the installed version of a package (`pip show`). -/
def getInstalledVersion (env : Env) (name : String) : Option String :=
  env.lookup name

/-- Behaviour of the external pip tool. -/
structure PipModel where
  ok : String → Bool
  latest : String → String

/-- Source line 196: `dependency.split("==")[0]`. -/
def basePackage (dep : String) : String :=
  (splitEqEq dep).headD dep

/-- Source line 197: `dependency.split("==")[1] if "==" in dependency`. -/
def specifiedVersion (dep : String) : Option String :=
  match splitEqEq dep with
  | _ :: v :: _ => some v
  | _ => none

/-- Source lines 192-193: keep lines whose strip is non-empty and that do
not start with `#` (the startswith test runs on the unstripped line, as in
the list comprehension), then strip each kept line. -/
def parseManifest (lines : List String) : List String :=
  (lines.filter (fun l => pyStrip l ≠ "" && !startsWithHash l)).map pyStrip

/-- Version present after `pip install dep` succeeds: the pinned version if
the spec is pinned, else the latest version of the base package. -/
def installedVersionResult (m : PipModel) (dep : String) : String :=
  match specifiedVersion dep with
  | some v => v
  | none => m.latest (basePackage dep)

/-- Source lines 214-244: one install attempt for `dep`, with a single
fallback to the unpinned base package on failure.  Returns the updated
environment and the list of `pip install` arguments issued. -/
def attemptInstall (m : PipModel) (env : Env) (dep : String) : Env × List String :=
  if m.ok dep then
    ((basePackage dep, installedVersionResult m dep) :: env, [dep])
  else if m.ok (basePackage dep) then
    ((basePackage dep, m.latest (basePackage dep)) :: env, [dep, basePackage dep])
  else
    (env, [dep, basePackage dep])

/-- Source lines 195-244: the body of the `for dependency in dependencies`
loop — skip when already satisfied, otherwise attempt the install. -/
def processDependency (m : PipModel) (env : Env) (dep : String) : Env × List String :=
  match getInstalledVersion env (basePackage dep), specifiedVersion dep with
  | some iv, some sv => if iv = sv then (env, []) else attemptInstall m env dep
  | some _, none => (env, [])
  | none, _ => attemptInstall m env dep

/-- Source lines 185-246: process every dependency in manifest order,
accumulating the trace of `pip install` invocations.  A dependency whose
install (and fallback) fails does not stop the loop. -/
def install_dependencies (m : PipModel) (env : Env) : List String → Env × List String
  | [] => (env, [])
  | d :: rest =>
    let r := processDependency m env d
    let r2 := install_dependencies m r.1 rest
    (r2.1, r.2 ++ r2.2)

/-- One reconciliation pass over a manifest given as raw file lines. -/
def reconcile (m : PipModel) (env : Env) (lines : List String) : Env × List String :=
  install_dependencies m env (parseManifest lines)

/-- The skip condition of the decision table: installed, and matching the
pin when one is given (source lines 201-210). -/
def depSatisfied (env : Env) (dep : String) : Bool :=
  match getInstalledVersion env (basePackage dep), specifiedVersion dep with
  | some iv, some sv => iv == sv
  | some _, none => true
  | none, _ => false

/-! ## Build executor (source lines 251-303)

`compile_application` runs pyinstaller inside a `while do_compile > 1`
loop with `do_compile` initialised to 3, decrementing on failure and
setting it to 0 on success.  The external build tool is modelled by
`ok : Nat → Bool`: whether the (0-based) i-th invocation exits with
code 0. -/

/-- The retry loop of `compile_application` (source lines 269-291).
Arguments: the tool oracle, the current `do_compile` value, the number of
attempts made so far.  Returns the total number of attempts performed and
whether the last attempt succeeded (`result.returncode == 0`). -/
def compileLoop (ok : Nat → Bool) : Nat → Nat → Nat × Bool
  | 0, i => (i, false)
  | 1, i => (i, false)
  | Nat.succ (Nat.succ d), i =>
    if ok i then (i + 1, true)
    else compileLoop ok (Nat.succ d) (i + 1)

/-- `compile_application`'s loop entered with `do_compile = 3` and no
attempts performed yet. -/
def compile_application (ok : Nat → Bool) : Nat × Bool := compileLoop ok 3 0

/-- Outcome of `compile_application` after the loop (source lines
293-303): exit with status 1 when the last attempt failed, otherwise move
the artifact out of `dist` when one is there. -/
inductive BuildResult where
  | failedExit (attempts : Nat)
  | success (attempts : Nat) (relocated : Bool)
  deriving DecidableEq, Repr

/-- Whole of `compile_application` including the post-loop exit test and
artifact relocation; `distArtifact` tells whether a successful tool run
left `dist/NordVPN-GUI` in place (`result_file.is_file()`). -/
def compile_application_run (ok : Nat → Bool) (distArtifact : Bool) : BuildResult :=
  let r := compile_application ok
  if r.2 then .success r.1 distArtifact else .failedExit r.1

/-! ## Build-mode driver `check_and_compile` (source lines 306-337)

After a successful compile the install marker is unlinked if present, and
the freshly built binary is re-invoked, forwarding the `noopen` token when
it was among the arguments.  A failed compile exits the process inside
`compile_application`. -/

/-- The child-process command `check_and_compile` re-invokes (source lines
332-336): the built binary, plus `noopen` when that token was passed. -/
def relaunchCmd (args : List String) : List String :=
  if args.contains "noopen" then [BIN_NAME, "noopen"] else [BIN_NAME]

/-- Marker handling and re-invocation of `check_and_compile` after
`compile_application` returns.  `none` models the `sys.exit(1)` taken
inside `compile_application` when every attempt failed; otherwise the
result is the marker state after lines 326-327 together with the re-invoked
command. -/
def check_and_compile (ok : Nat → Bool) (markerBefore : Bool) (args : List String) :
    Option (Bool × List String) :=
  if (compile_application ok).2 then
    some ((if markerBefore then false else markerBefore), relaunchCmd args)
  else
    none

/-! ## Interactive prompt and error exit (source lines 28-41) -/

/-- Default of the `timeout` parameter of `timed_input` (source line 34). -/
def TIMED_INPUT_DEFAULT_TIMEOUT : Nat := 10

/-- `timed_input` (source lines 34-41): `select` waits up to the timeout;
`none` models the timeout elapsing with no input ready, in which case the
answer defaults to `"n"`; otherwise the line read is stripped. -/
def timed_input (readyLine : Option String) : String :=
  match readyLine with
  | some line => pyStrip line
  | none => "n"

/-- `error_exit` (source lines 28-32): print the message, sleep, exit with
status 1.  Modelled as the printed message together with the exit status. -/
def error_exit (message : String) : String × Nat := (message, 1)

/-! ## Installation staging (source lines 43-146)

The filesystem slice the stager touches, as an explicit record.  File
writes open with mode `"w"` (truncate-and-write) and directory creation
passes `exist_ok=True` / `parents=True`, so every step is total and
overwrites previous state. -/

/-- Filesystem state of the installation layout. -/
structure FS where
  dirExists : Bool
  binInstalled : Bool
  iconInstalled : Bool
  desktopFile : Option String
  menuDesktopFile : Option String
  installerScript : Bool
  uninstallerScript : Bool
  marker : Bool
  deriving DecidableEq, Repr

/-- `create_installation_directory` (source lines 43-47). -/
def create_installation_directory (fs : FS) : FS :=
  { fs with dirExists := true }

/-- `copy_files` (source lines 49-61): unlink any previous icon and binary
copies, then copy fresh ones. -/
def copy_files (fs : FS) : FS :=
  { fs with binInstalled := true, iconInstalled := true }

/-- The descriptor text written by `create_desktop_file` (source lines
65-74), with the f-string placeholders resolved against the path
constants. -/
def desktopContent (home : String) : String :=
  "[Desktop Entry]\nVersion=1.0\nType=Application\nTerminal=false\nExec="
    ++ BIN_PATH home ++ "\nPath=" ++ INSTALL_DIR home
    ++ "\nName=NordVPN GUI\nIcon=" ++ ICON_PATH home
    ++ "\nX-Desktop-File-Install-Version=0.24\n"

/-- `create_desktop_file` (source lines 63-82): the same rendered content
is written to the canonical location and the menu-discovery location. -/
def create_desktop_file (home : String) (fs : FS) : FS :=
  { fs with desktopFile := some (desktopContent home),
            menuDesktopFile := some (desktopContent home) }

/-- `create_un_installer` (source lines 84-129): write the install and
uninstall helper scripts and mark them executable. -/
def create_un_installer (fs : FS) : FS :=
  { fs with installerScript := true, uninstallerScript := true }

/-- `save_installed_file` (source lines 131-134): write the marker file. -/
def save_installed_file (fs : FS) : FS :=
  { fs with marker := true }

/-- Number of `xdg-open` convenience launches `finalize_installation`
performs (source lines 136-146). -/
def finalizeXdgOpenCalls (args : List String) : Nat :=
  if args.contains "noopen" then 0 else 1

/-- The staging sequence of Install mode in source order (source lines
363-367); `finalize_installation` follows but does not touch the
installation layout. -/
def stagingSteps (home : String) : List (FS → FS) :=
  [create_installation_directory, copy_files, create_desktop_file home,
   create_un_installer, save_installed_file]

/-- Run the first `k` staging steps. -/
def runStagingPrefix (home : String) (k : Nat) (fs : FS) : FS :=
  ((stagingSteps home).take k).foldl (fun s f => f s) fs

/-- A full Install-mode pass over the filesystem state. -/
def runInstallPass (home : String) (fs : FS) : FS :=
  (stagingSteps home).foldl (fun s f => f s) fs

/-! ## Mode controller `main` (source lines 347-368) -/

/-- The three modes of the bootstrapper. -/
inductive Mode where
  | build
  | launch
  | install
  deriving DecidableEq, Repr

/-- What a run of `main` does before (possibly) handing control away. -/
inductive MainOutcome where
  | exitError (message : String) (status : Nat)
  | entered (m : Mode)
  deriving DecidableEq, Repr

/-- Process state `main` inspects: whether `sys._MEIPASS` is set
(`is_compiled`), whether the install marker file exists, `sys.argv[1:]`,
and the stdin line the prompt would read (`none` = timeout). -/
structure SysState where
  compiled : Bool
  markerFile : Bool
  args : List String
  stdinLine : Option String

/-- The prompt response `main` computes (source lines 350-354): the literal
`"y"` when the `compile` token was passed, else the timed prompt's
answer. -/
def mainResponse (s : SysState) : String :=
  if s.args.contains "compile" then "y" else timed_input s.stdinLine

/-- The dispatch of `main` (source lines 347-362): from source, an accepted
prompt enters Build mode and a refused one error-exits; compiled with the
marker present enters Launch mode; otherwise Install mode. -/
def main_dispatch (s : SysState) : MainOutcome :=
  if !s.compiled then
    if pyLower (mainResponse s) ≠ "y" then
      .exitError (error_exit "Exiting. Please compile the script to run the installer.").1
        (error_exit "Exiting. Please compile the script to run the installer.").2
    else
      .entered .build
  else if s.markerFile then
    .entered .launch
  else
    .entered .install

/-- Labels for the observable actions of a `main` run. -/
inductive Action where
  | errorExit
  | buildAndExit
  | launchAppAndExit
  | createDir
  | copyFiles
  | writeDesktopFiles
  | writeScripts
  | writeMarker
  | finalize
  deriving DecidableEq, Repr

/-- The action sequence of `main` (source lines 347-368).  Build mode ends
inside `check_and_compile` (`sys.exit()`), Launch mode ends inside
`start_app_and_close` (`sys.exit()`), so neither reaches the staging
calls; Install mode runs the five staging steps then finalizes. -/
def main_actions (s : SysState) : List Action :=
  match main_dispatch s with
  | .exitError _ _ => [.errorExit]
  | .entered .build => [.buildAndExit]
  | .entered .launch => [.launchAppAndExit]
  | .entered .install =>
    [.createDir, .copyFiles, .writeDesktopFiles, .writeScripts, .writeMarker, .finalize]

/-- A pip model in which every install invocation succeeds. -/
def pipAllOk : PipModel := ⟨fun _ => true, fun _ => "9.9"⟩

/-- A pip model in which every install invocation fails. -/
def pipAllFail : PipModel := ⟨fun _ => false, fun _ => "9.9"⟩

/-! ## Lemmas about dependency reconciliation -/

theorem getInstalledVersion_cons_self (env : Env) (k v : String) :
    getInstalledVersion ((k, v) :: env) k = some v := by
  simp [getInstalledVersion, List.lookup]

theorem getInstalledVersion_cons_ne (env : Env) (a k v : String) (h : a ≠ k) :
    getInstalledVersion ((k, v) :: env) a = getInstalledVersion env a := by
  have hb : (a == k) = false := beq_eq_false_iff_ne.mpr h
  simp [getInstalledVersion, List.lookup, hb]

/-- A dependency the environment already satisfies is skipped: no install
invocation and no environment change. -/
theorem processDependency_of_satisfied (m : PipModel) (env : Env) (dep : String)
    (h : depSatisfied env dep = true) :
    processDependency m env dep = (env, []) := by
  unfold depSatisfied at h
  unfold processDependency
  cases hiv : getInstalledVersion env (basePackage dep) with
  | none => simp [hiv] at h
  | some iv =>
    cases hsv : specifiedVersion dep with
    | none => simp [hiv, hsv]
    | some sv =>
      simp only [hiv, hsv] at h
      have : iv = sv := by simpa using h
      simp [hiv, hsv, this]

/-- A reconciliation pass over an already satisfied manifest issues no
install invocation and leaves the environment unchanged. -/
theorem install_dependencies_of_satisfied (m : PipModel) (env : Env) (deps : List String)
    (h : ∀ d ∈ deps, depSatisfied env d = true) :
    install_dependencies m env deps = (env, []) := by
  induction deps with
  | nil => rfl
  | cons d rest ih =>
    have hd : processDependency m env d = (env, []) :=
      processDependency_of_satisfied m env d (h d (List.mem_cons_self d rest))
    have hrest : install_dependencies m env rest = (env, []) :=
      ih (fun x hx => h x (List.mem_cons_of_mem d hx))
    simp [install_dependencies, hd, hrest]

/-- An install attempt for `dep` touches only the entry of its own base
package. -/
theorem getInstalledVersion_attemptInstall_ne (m : PipModel) (env : Env) (dep k : String)
    (hk : k ≠ basePackage dep) :
    getInstalledVersion (attemptInstall m env dep).1 k = getInstalledVersion env k := by
  unfold attemptInstall
  split
  · exact getInstalledVersion_cons_ne env k (basePackage dep) _ hk
  · split
    · exact getInstalledVersion_cons_ne env k (basePackage dep) _ hk
    · rfl

/-- Processing `dep` touches only the entry of its own base package. -/
theorem getInstalledVersion_processDependency_ne (m : PipModel) (env : Env) (dep k : String)
    (hk : k ≠ basePackage dep) :
    getInstalledVersion (processDependency m env dep).1 k = getInstalledVersion env k := by
  unfold processDependency
  cases hiv : getInstalledVersion env (basePackage dep) with
  | none => exact getInstalledVersion_attemptInstall_ne m env dep k hk
  | some iv =>
    cases hsv : specifiedVersion dep with
    | none => rfl
    | some sv =>
      by_cases hivsv : iv = sv
      · simp [hivsv]
      · simpa [hivsv] using getInstalledVersion_attemptInstall_ne m env dep k hk

/-- A whole reconciliation pass touches only entries of base packages that
occur in the manifest. -/
theorem getInstalledVersion_install_dependencies_ne (m : PipModel) (deps : List String)
    (env : Env) (k : String) (hk : k ∉ deps.map basePackage) :
    getInstalledVersion (install_dependencies m env deps).1 k = getInstalledVersion env k := by
  induction deps generalizing env with
  | nil => rfl
  | cons d rest ih =>
    have hkd : k ≠ basePackage d := by
      intro he
      exact hk (by simp [he])
    have hkrest : k ∉ rest.map basePackage := by
      intro hm
      exact hk (by simp [hm])
    calc getInstalledVersion (install_dependencies m env (d :: rest)).1 k
        = getInstalledVersion (install_dependencies m (processDependency m env d).1 rest).1 k := by
          simp [install_dependencies]
      _ = getInstalledVersion (processDependency m env d).1 k := ih _ hkrest
      _ = getInstalledVersion env k := getInstalledVersion_processDependency_ne m env d k hkd

/-- `depSatisfied` only looks at the entry of the dependency's base
package. -/
theorem depSatisfied_eq_of_lookup_eq (env1 env2 : Env) (dep : String)
    (h : getInstalledVersion env1 (basePackage dep) = getInstalledVersion env2 (basePackage dep)) :
    depSatisfied env1 dep = depSatisfied env2 dep := by
  unfold depSatisfied
  rw [h]

/-- When every pip invocation succeeds, a processed dependency is satisfied
afterwards. -/
theorem depSatisfied_processDependency_self (m : PipModel) (env : Env) (dep : String)
    (hok : ∀ a, m.ok a = true) :
    depSatisfied (processDependency m env dep).1 dep = true := by
  unfold processDependency
  cases hiv : getInstalledVersion env (basePackage dep) with
  | none =>
    unfold attemptInstall
    rw [hok dep]
    simp only [ite_true]
    unfold depSatisfied
    rw [getInstalledVersion_cons_self]
    unfold installedVersionResult
    cases hsv : specifiedVersion dep <;> simp [hsv]
  | some iv =>
    cases hsv : specifiedVersion dep with
    | none => simp [depSatisfied, hiv, hsv]
    | some sv =>
      by_cases hivsv : iv = sv
      · simp [hivsv, depSatisfied, hiv, hsv]
      · simp only [hivsv, ite_false]
        unfold attemptInstall
        rw [hok dep]
        simp only [ite_true]
        unfold depSatisfied
        rw [getInstalledVersion_cons_self]
        simp [installedVersionResult, hsv]

/-- When every pip invocation succeeds and no base package occurs twice in
the manifest, the environment satisfies every manifest entry after one
reconciliation pass. -/
theorem install_dependencies_all_satisfied (m : PipModel) (deps : List String)
    (hok : ∀ a, m.ok a = true) (hnd : (deps.map basePackage).Nodup) :
    ∀ env, ∀ d ∈ deps, depSatisfied (install_dependencies m env deps).1 d = true := by
  induction deps with
  | nil => intro env d hd; cases hd
  | cons d0 rest ih =>
    intro env d hd
    have hnd' : (basePackage d0 :: rest.map basePackage).Nodup := by simpa using hnd
    have hnd0 : basePackage d0 ∉ rest.map basePackage := (List.nodup_cons.mp hnd').1
    have hndrest : (rest.map basePackage).Nodup := (List.nodup_cons.mp hnd').2
    rcases List.mem_cons.mp hd with he | hm
    · subst he
      have hpres : getInstalledVersion (install_dependencies m (processDependency m env d).1 rest).1 (basePackage d)
          = getInstalledVersion (processDependency m env d).1 (basePackage d) :=
        getInstalledVersion_install_dependencies_ne m rest _ (basePackage d) hnd0
      have hsat : depSatisfied (processDependency m env d).1 d = true :=
        depSatisfied_processDependency_self m env d hok
      have : depSatisfied (install_dependencies m (processDependency m env d).1 rest).1 d
          = depSatisfied (processDependency m env d).1 d :=
        depSatisfied_eq_of_lookup_eq _ _ d hpres
      rw [show (install_dependencies m env (d :: rest)).1
            = (install_dependencies m (processDependency m env d).1 rest).1 by
          simp [install_dependencies]]
      rw [this, hsat]
    · rw [show (install_dependencies m env (d0 :: rest)).1
            = (install_dependencies m (processDependency m env d0).1 rest).1 by
          simp [install_dependencies]]
      exact ih hndrest _ d hm

/-! ## Claim theorems -/

/-- C1 (code bug): the retry loop of `compile_application` is entered with
`do_compile = 3` but guarded by `while do_compile > 1`, so it performs at
most two attempts.  On an input where the build tool fails on the first two
attempts and would succeed on the third, the code performs exactly 2
attempts and exits with a non-zero status, instead of succeeding after
exactly 3 attempts as the spec (and the code's own `do_compile = 3` /
retry messages) intend. -/
theorem c1_retry_loop_stops_after_two_attempts :
    (∀ ok : Nat → Bool, (compile_application ok).1 ≤ 2) ∧
    compile_application (fun i => decide (i = 2)) = (2, false) ∧
    compile_application_run (fun i => decide (i = 2)) true = .failedExit 2 := by
  refine ⟨fun ok => ?_, by decide, by decide⟩
  have h : compile_application ok
      = if ok 0 then (1, true) else if ok 1 then (2, true) else (2, false) := rfl
  rw [h]
  by_cases h0 : ok 0 <;> by_cases h1 : ok 1 <;> simp [h0, h1]

/-- C2: `main` dispatches on the runtime identity exactly as specified:
from source, an accepted prompt (the `compile` token forces acceptance)
enters Build mode, a refusal exits with status 1; compiled with the marker
present enters Launch mode and performs no staging action; compiled with
the marker absent enters Install mode. -/
theorem c2_mode_controller_dispatch (s : SysState) :
    (s.compiled = false → pyLower (mainResponse s) = "y" →
      main_dispatch s = .entered .build ∧ main_actions s = [.buildAndExit]) ∧
    (s.compiled = false → pyLower (mainResponse s) ≠ "y" →
      main_dispatch s = .exitError "Exiting. Please compile the script to run the installer." 1 ∧
      main_actions s = [.errorExit]) ∧
    (s.compiled = true → s.markerFile = true →
      main_dispatch s = .entered .launch ∧ main_actions s = [.launchAppAndExit]) ∧
    (s.compiled = true → s.markerFile = false → main_dispatch s = .entered .install) ∧
    (s.args.contains "compile" = true → mainResponse s = "y") := by
  refine ⟨?_, ?_, ?_, ?_, ?_⟩
  · intro hc hy
    have hd : main_dispatch s = .entered .build := by simp [main_dispatch, hc, hy]
    exact ⟨hd, by simp [main_actions, hd]⟩
  · intro hc hy
    have hd : main_dispatch s
        = .exitError "Exiting. Please compile the script to run the installer." 1 := by
      simp [main_dispatch, hc, hy, error_exit]
    exact ⟨hd, by simp [main_actions, hd]⟩
  · intro hc hm
    have hd : main_dispatch s = .entered .launch := by simp [main_dispatch, hc, hm]
    exact ⟨hd, by simp [main_actions, hd]⟩
  · intro hc hm
    simp [main_dispatch, hc, hm]
  · intro h
    have hm : "compile" ∈ s.args := by simpa using h
    simp [mainResponse, hm]

/-- C2 witness: concrete states exercising every branch of the dispatch. -/
theorem c2_witness :
    (main_dispatch ⟨false, false, ["compile"], none⟩ = .entered .build ∧
      main_actions ⟨false, false, ["compile"], none⟩ = [.buildAndExit]) ∧
    (main_dispatch ⟨false, false, [], some "yes"⟩ =
        .exitError "Exiting. Please compile the script to run the installer." 1 ∧
      main_actions ⟨false, false, [], some "yes"⟩ = [.errorExit]) ∧
    (main_dispatch ⟨true, true, [], none⟩ = .entered .launch ∧
      main_actions ⟨true, true, [], none⟩ = [.launchAppAndExit]) ∧
    main_dispatch ⟨true, false, [], none⟩ = .entered .install :=
  ⟨(c2_mode_controller_dispatch ⟨false, false, ["compile"], none⟩).1 rfl (by decide),
   (c2_mode_controller_dispatch ⟨false, false, [], some "yes"⟩).2.1 rfl (by decide),
   (c2_mode_controller_dispatch ⟨true, true, [], none⟩).2.2.1 rfl rfl,
   (c2_mode_controller_dispatch ⟨true, false, [], none⟩).2.2.2.1 rfl rfl⟩

/-- C3 (amended): a reconciliation pass over a manifest every entry of
which the environment already satisfies issues zero install invocations;
and a second reconciliation pass immediately after a first one over the
unchanged manifest issues zero install invocations, provided every pip
invocation succeeds and no base package occurs twice in the manifest. -/
theorem c3_reconciliation_idempotent (m : PipModel) (env : Env) (lines : List String) :
    ((∀ d ∈ parseManifest lines, depSatisfied env d = true) → (reconcile m env lines).2 = []) ∧
    ((∀ a, m.ok a = true) → ((parseManifest lines).map basePackage).Nodup →
      (reconcile m (reconcile m env lines).1 lines).2 = []) := by
  constructor
  · intro h
    unfold reconcile
    rw [install_dependencies_of_satisfied m env _ h]
  · intro hok hnd
    unfold reconcile
    rw [install_dependencies_of_satisfied m _ _
      (install_dependencies_all_satisfied m _ hok hnd env)]

/-- C3 counterexample: with a pip tool that fails the pinned install and
the fallback, the second of two back-to-back reconciliation passes over the
unchanged one-line manifest `a==1` still issues install invocations, so
reconciliation is not unconditionally idempotent. -/
theorem c3_counterexample :
    (reconcile pipAllFail (reconcile pipAllFail [] ["a==1"]).1 ["a==1"]).2 ≠ [] := by
  decide

/-- C3 witness: a satisfied one-entry manifest issues no installs, and a
double run over a fresh environment with an always-succeeding pip issues no
installs on the second pass. -/
theorem c3_witness :
    (reconcile pipAllOk [("a", "1")] ["a==1"]).2 = [] ∧
    (reconcile pipAllOk (reconcile pipAllOk [] ["a==1", "b"]).1 ["a==1", "b"]).2 = [] :=
  ⟨(c3_reconciliation_idempotent pipAllOk [("a", "1")] ["a==1"]).1 (by decide),
   (c3_reconciliation_idempotent pipAllOk [] ["a==1", "b"]).2 (fun a => rfl) (by decide)⟩

/-- C4: a dependency installed at a version differing from its pin gets
exactly one reinstall invocation for the pinned spec; if pip fails on it,
exactly one fallback invocation for the unpinned base package follows; with
or without failure the loop then continues with the remaining
dependencies. -/
theorem c4_pinned_mismatch_policy (m : PipModel) (env : Env) (dep iv sv : String)
    (hinst : getInstalledVersion env (basePackage dep) = some iv)
    (hspec : specifiedVersion dep = some sv)
    (hne : iv ≠ sv) :
    (m.ok dep = true → (processDependency m env dep).2 = [dep]) ∧
    (m.ok dep = false → (processDependency m env dep).2 = [dep, basePackage dep]) ∧
    (∀ rest, (install_dependencies m env (dep :: rest)).2 =
      (processDependency m env dep).2
        ++ (install_dependencies m (processDependency m env dep).1 rest).2) := by
  refine ⟨?_, ?_, fun rest => by simp [install_dependencies]⟩
  · intro hok
    simp [processDependency, hinst, hspec, hne, attemptInstall, hok]
  · intro hfail
    by_cases h2 : m.ok (basePackage dep) = true <;>
      simp [processDependency, hinst, hspec, hne, attemptInstall, hfail, h2]

/-- C4 witness: the spec's scenario — manifest entry `requests==2.31.0`
with `requests 2.28.0` installed and a failing pip — issues exactly the
pinned reinstall then exactly one unpinned fallback. -/
theorem c4_witness :
    (processDependency pipAllFail [("requests", "2.28.0")] "requests==2.31.0").2
      = ["requests==2.31.0", "requests"] :=
  (c4_pinned_mismatch_policy pipAllFail [("requests", "2.28.0")] "requests==2.31.0"
    "2.28.0" "2.31.0" (by decide) (by decide) (by decide)).2.1 rfl

/-- C5: after any successful build `check_and_compile` leaves the install
marker file absent (it is unlinked even when it existed before the build),
so a compiled binary started in that state is dispatched to Install
mode. -/
theorem c5_marker_deleted_after_build (ok : Nat → Bool) (markerBefore : Bool)
    (args : List String) (hsucc : (compile_application ok).2 = true) :
    check_and_compile ok markerBefore args = some (false, relaunchCmd args) ∧
    main_dispatch ⟨true, false, args, none⟩ = .entered .install := by
  constructor
  · unfold check_and_compile
    rw [hsucc]
    cases markerBefore <;> simp
  · simp [main_dispatch]

/-- C5 witness: a first-attempt-success build with the marker present
beforehand. -/
theorem c5_witness :
    check_and_compile (fun _ => true) true ["noopen"] = some (false, relaunchCmd ["noopen"]) ∧
    main_dispatch ⟨true, false, ["noopen"], none⟩ = .entered .install :=
  c5_marker_deleted_after_build (fun _ => true) true ["noopen"] (by decide)

/-- C6: starting from a marker-absent state (which Install mode guarantees),
every proper prefix of the staging sequence leaves the install marker
absent — only the final staging step writes it — so an interrupted staging
run is dispatched to Install mode again, while the complete sequence sets
the marker. -/
theorem c6_marker_written_last (home : String) (fs : FS) (k : Nat) (args : List String)
    (line? : Option String) (hm : fs.marker = false)
    (hk : k < (stagingSteps home).length) :
    (runStagingPrefix home k fs).marker = false ∧
    main_dispatch ⟨true, (runStagingPrefix home k fs).marker, args, line?⟩ = .entered .install ∧
    (runInstallPass home fs).marker = true := by
  have hlen : (stagingSteps home).length = 5 := rfl
  rw [hlen] at hk
  have hpre : (runStagingPrefix home k fs).marker = false := by
    interval_cases k <;>
      simp [runStagingPrefix, stagingSteps, create_installation_directory, copy_files,
        create_desktop_file, create_un_installer, hm]
  refine ⟨hpre, by simp [main_dispatch, hpre], by
    simp [runInstallPass, stagingSteps, create_installation_directory, copy_files,
      create_desktop_file, create_un_installer, save_installed_file]⟩

/-- C6 witness: the longest incomplete prefix (all four steps before the
marker write) on an initially empty filesystem. -/
theorem c6_witness :
    (runStagingPrefix "/home/u" 4 ⟨false, false, false, none, none, false, false, false⟩).marker
        = false ∧
    main_dispatch ⟨true,
        (runStagingPrefix "/home/u" 4
          ⟨false, false, false, none, none, false, false, false⟩).marker,
        [], none⟩ = .entered .install ∧
    (runInstallPass "/home/u" ⟨false, false, false, none, none, false, false, false⟩).marker
        = true :=
  c6_marker_written_last "/home/u" ⟨false, false, false, none, none, false, false, false⟩ 4
    [] none rfl (by decide)

/-- C7: one Install pass writes the canonical and the menu-discovery
descriptor with identical rendered content, and a second pass immediately
after rewrites byte-identical contents at both locations. -/
theorem c7_descriptor_files_identical (home : String) (fs : FS) :
    ((runInstallPass home fs).desktopFile = (runInstallPass home fs).menuDesktopFile ∧
      (runInstallPass home fs).desktopFile = some (desktopContent home)) ∧
    ((runInstallPass home (runInstallPass home fs)).desktopFile
        = (runInstallPass home fs).desktopFile ∧
      (runInstallPass home (runInstallPass home fs)).menuDesktopFile
        = (runInstallPass home fs).menuDesktopFile) :=
  ⟨⟨rfl, rfl⟩, rfl, rfl⟩

/-- C8: the prompt's timeout parameter defaults to 10; on timeout the
answer defaults to `n`; and both an explicit `n` and a timeout make `main`
take the ordinary `error_exit` path — the informative message with exit
status 1 — rather than anything unhandled. -/
theorem c8_prompt_timeout_fail_safe (marker : Bool) (args : List String)
    (hc : args.contains "compile" = false) :
    TIMED_INPUT_DEFAULT_TIMEOUT = 10 ∧
    timed_input none = "n" ∧
    main_dispatch ⟨false, marker, args, none⟩ =
      .exitError "Exiting. Please compile the script to run the installer." 1 ∧
    main_dispatch ⟨false, marker, args, some "n"⟩ =
      .exitError "Exiting. Please compile the script to run the installer." 1 := by
  have h1 : pyLower (timed_input none) ≠ "y" := by decide
  have h2 : pyLower (timed_input (some "n")) ≠ "y" := by decide
  refine ⟨rfl, rfl, ?_, ?_⟩
  · have hm : "compile" ∉ args := by simpa using hc
    have hr : mainResponse ⟨false, marker, args, none⟩ = timed_input none := by
      simp [mainResponse, hm]
    simp [main_dispatch, hr, h1, error_exit]
  · have hm : "compile" ∉ args := by simpa using hc
    have hr : mainResponse ⟨false, marker, args, some "n"⟩ = timed_input (some "n") := by
      simp [mainResponse, hm]
    simp [main_dispatch, hr, h2, error_exit]

/-- C8 witness: no arguments, marker absent. -/
theorem c8_witness :
    TIMED_INPUT_DEFAULT_TIMEOUT = 10 ∧
    timed_input none = "n" ∧
    main_dispatch ⟨false, false, [], none⟩ =
      .exitError "Exiting. Please compile the script to run the installer." 1 ∧
    main_dispatch ⟨false, false, [], some "n"⟩ =
      .exitError "Exiting. Please compile the script to run the installer." 1 :=
  c8_prompt_timeout_fail_safe false [] rfl

/-- C9: when `noopen` is among the arguments, `finalize_installation` makes
no `xdg-open` call and the build-mode relaunch command forwards the token;
when it is absent, exactly one `xdg-open` call is made. -/
theorem c9_noopen_token (args : List String) :
    (args.contains "noopen" = true →
      finalizeXdgOpenCalls args = 0 ∧ relaunchCmd args = [BIN_NAME, "noopen"]) ∧
    (args.contains "noopen" = false →
      finalizeXdgOpenCalls args = 1 ∧ relaunchCmd args = [BIN_NAME]) := by
  constructor
  · intro h
    have hm : "noopen" ∈ args := by simpa using h
    simp [finalizeXdgOpenCalls, relaunchCmd, hm]
  · intro h
    have hm : "noopen" ∉ args := by simpa using h
    simp [finalizeXdgOpenCalls, relaunchCmd, hm]

/-- C9 witness: both the `noopen` and the plain invocation. -/
theorem c9_witness :
    (finalizeXdgOpenCalls ["noopen"] = 0 ∧ relaunchCmd ["noopen"] = [BIN_NAME, "noopen"]) ∧
    (finalizeXdgOpenCalls [] = 1 ∧ relaunchCmd [] = [BIN_NAME]) :=
  ⟨(c9_noopen_token ["noopen"]).1 rfl, (c9_noopen_token []).2 rfl⟩

/-- C10: every prompt response whose stripped, lowercased form is not the
exact string `y` — in particular `yes` and the empty string — is treated
as a refusal: `main` exits with status 1. -/
theorem c10_only_exact_y_accepted (raw : String) (marker : Bool)
    (h : pyLower (pyStrip raw) ≠ "y") :
    main_dispatch ⟨false, marker, [], some raw⟩ =
      .exitError "Exiting. Please compile the script to run the installer." 1 ∧
    main_dispatch ⟨false, marker, [], some "yes"⟩ =
      .exitError "Exiting. Please compile the script to run the installer." 1 ∧
    main_dispatch ⟨false, marker, [], some ""⟩ =
      .exitError "Exiting. Please compile the script to run the installer." 1 := by
  have hyes : pyLower (pyStrip "yes") ≠ "y" := by decide
  have hnil : pyLower (pyStrip "") ≠ "y" := by decide
  refine ⟨?_, ?_, ?_⟩
  · have hr : mainResponse ⟨false, marker, [], some raw⟩ = pyStrip raw := rfl
    simp [main_dispatch, hr, h, error_exit]
  · have hr : mainResponse ⟨false, marker, [], some "yes"⟩ = pyStrip "yes" := rfl
    simp [main_dispatch, hr, hyes, error_exit]
  · have hr : mainResponse ⟨false, marker, [], some ""⟩ = pyStrip "" := rfl
    simp [main_dispatch, hr, hnil, error_exit]

/-- C10 witness: the affirmative-looking response `YES` (with surrounding
whitespace) is still refused. -/
theorem c10_witness :
    main_dispatch ⟨false, false, [], some " YES \n"⟩ =
      .exitError "Exiting. Please compile the script to run the installer." 1 ∧
    main_dispatch ⟨false, false, [], some "yes"⟩ =
      .exitError "Exiting. Please compile the script to run the installer." 1 ∧
    main_dispatch ⟨false, false, [], some ""⟩ =
      .exitError "Exiting. Please compile the script to run the installer." 1 :=
  c10_only_exact_y_accepted " YES \n" false (by decide)

end NordInstaller

